import Mathlib

/-!
Shallow embedding of `src/src/SysTimer_AVR.cpp` (the AVR backend of the
SysTimer library) and proofs about it.

Modelling conventions:
* The AVR hardware registers touched by the driver (`TCCRnA`, `TCCRnB`,
  `TIMSKn`, `OCRnA` for timers 1, 3, 4, 5) are fields of `TimerRegs` /
  `AVRState`, as `Nat` values.  The global interrupt flag (the `I` bit of
  `SREG`, toggled by `cli()` / `sei()`) is the Boolean `iflag`.
* `SYST_MAX_TIMERS` (a preprocessor constant, 1, 2 or 4) is threaded as the
  explicit parameter `m`; the `#if SYST_MAX_TIMERS >= 2` / `== 4` guards of
  the source become `if` conditions on `m`.
* The C `double` arithmetic of `setTimerInterval` is modelled bit-exactly.
  This translation unit is compiled only for AVR targets (`#if defined(__AVR__)`),
  where `double` is IEEE-754 binary32; accordingly every C arithmetic
  operation on `double` is wrapped in `fl32`, exact rounding to nearest
  (ties to even) at a 24-bit significand over `ℚ`.  All intermediate values
  of this program lie far inside the binary32 normal range (between about
  `2^-14` and `2^17`), so neither overflow, underflow nor subnormals arise
  and the normal-range rounding model is exact.
* Null pointers are `Option.none`.  Where the source dereferences a pointer
  (or calls a function pointer) with no null test, the model returns `none`
  on a null input: the C program has no defined result there (undefined
  behavior), so the embedded function is fallible.
-/

namespace SysTimer

/-- The clock frequency of the concrete scenario: a 16 MHz AVR (`F_CPU`). -/
def F_CPU : Nat := 16000000

/-- Macro `_BV(b)` from avr-libc: a byte with only bit `b` set. -/
def _BV (b : Nat) : Nat := 2 ^ b

/-- Bit position `CS10` in `TCCRnB` (clock select, prescaler bit). -/
def CS10 : Nat := 0

/-- Bit position `CS12` in `TCCRnB` (clock select, prescaler bit). -/
def CS12 : Nat := 2

/-- Bit position `WGM12` in `TCCRnB` (CTC waveform mode). -/
def WGM12 : Nat := 3

/-- Bit position `OCIEnA` in `TIMSKn` (output-compare-A interrupt enable). -/
def OCIEA : Nat := 1

/-- The registers of one 16-bit AVR timer unit that the driver touches:
control registers A and B, the interrupt mask register, and the
output-compare (comparator) register `OCRnA`. -/
structure TimerRegs where
  tccrA : Nat
  tccrB : Nat
  timsk : Nat
  ocr   : Nat
deriving DecidableEq, Repr

/-- Registers all zero (hardware reset state). -/
def TimerRegs.zero : TimerRegs := ⟨0, 0, 0, 0⟩

/-- The hardware state seen by the driver: the four timer units a large AVR
offers (channel 0 ↦ timer 1, channel 1 ↦ timer 3, channel 2 ↦ timer 4,
channel 3 ↦ timer 5) and the global interrupt-enable flag. -/
structure AVRState where
  timer1 : TimerRegs
  timer3 : TimerRegs
  timer4 : TimerRegs
  timer5 : TimerRegs
  iflag  : Bool
deriving DecidableEq, Repr

/-- Reset hardware state, interrupts enabled. -/
def AVRState.init : AVRState := ⟨.zero, .zero, .zero, .zero, true⟩

/-- The registers of the timer unit serving a given channel. -/
def AVRState.chRegs (s : AVRState) : Nat → TimerRegs
  | 0 => s.timer1
  | 1 => s.timer3
  | 2 => s.timer4
  | _ => s.timer5

/-- Intrinsic `cli()`: clear the global interrupt-enable flag. -/
def cli (s : AVRState) : AVRState := { s with iflag := false }

/-- Intrinsic `sei()`: set the global interrupt-enable flag. -/
def sei (s : AVRState) : AVRState := { s with iflag := true }

/-- Function `stopTimer(timerNum, disableInterrupts)`: clears the channel's two
control registers.  The `case 1` arm exists only when
`SYST_MAX_TIMERS >= 2`, the `case 2`/`case 3` arms only when
`SYST_MAX_TIMERS == 4`; there is no `default`, so any other channel id
falls through the `switch` writing nothing. -/
def stopTimer (m : Nat) (timerNum : Nat) (disableInterrupts : Bool)
    (s : AVRState) : AVRState :=
  let s := if disableInterrupts then cli s else s
  let s :=
    match timerNum with
    | 0 => { s with timer1 := { s.timer1 with tccrA := 0, tccrB := 0 } }
    | 1 => if 2 ≤ m then
             { s with timer3 := { s.timer3 with tccrA := 0, tccrB := 0 } }
           else s
    | 2 => if m = 4 then
             { s with timer4 := { s.timer4 with tccrA := 0, tccrB := 0 } }
           else s
    | 3 => if m = 4 then
             { s with timer5 := { s.timer5 with tccrA := 0, tccrB := 0 } }
           else s
    | _ => s
  if disableInterrupts then sei s else s

/-- Function `initTimer(timerNum)`: `cli()`, `stopTimer(timerNum, false)`, then set
the compare-match interrupt-enable bit in the channel's mask register,
then `sei()`. -/
def initTimer (m : Nat) (timerNum : Nat) (s : AVRState) : AVRState :=
  let s := cli s
  let s := stopTimer m timerNum false s
  let s :=
    match timerNum with
    | 0 => { s with timer1 := { s.timer1 with timsk := s.timer1.timsk ||| _BV OCIEA } }
    | 1 => if 2 ≤ m then
             { s with timer3 := { s.timer3 with timsk := s.timer3.timsk ||| _BV OCIEA } }
           else s
    | 2 => if m = 4 then
             { s with timer4 := { s.timer4 with timsk := s.timer4.timsk ||| _BV OCIEA } }
           else s
    | 3 => if m = 4 then
             { s with timer5 := { s.timer5 with timsk := s.timer5.timsk ||| _BV OCIEA } }
           else s
    | _ => s
  sei s

/-- The control bits `startTimer` sets in `TCCRnB`: prescaler 1024
(`CS10 | CS12`) and CTC mode (`WGM12`). -/
def startBits : Nat := _BV CS10 ||| _BV CS12 ||| _BV WGM12

/-- Function `startTimer(timerNum)`: `cli()`, OR the prescaler/CTC bits into the
channel's control register B, `sei()`. -/
def startTimer (m : Nat) (timerNum : Nat) (s : AVRState) : AVRState :=
  let s := cli s
  let s :=
    match timerNum with
    | 0 => { s with timer1 := { s.timer1 with tccrB := s.timer1.tccrB ||| startBits } }
    | 1 => if 2 ≤ m then
             { s with timer3 := { s.timer3 with tccrB := s.timer3.tccrB ||| startBits } }
           else s
    | 2 => if m = 4 then
             { s with timer4 := { s.timer4 with tccrB := s.timer4.tccrB ||| startBits } }
           else s
    | 3 => if m = 4 then
             { s with timer5 := { s.timer5 with tccrB := s.timer5.tccrB ||| startBits } }
           else s
    | _ => s
  sei s

/-- Cast `static_cast<uint16_t>` applied to a `double`.  Every value so cast in
this file is nonnegative and below 2^16 (out-of-range casts would be
undefined behavior in C), so the cast is truncation toward zero, i.e. the
floor. -/
def castU16 (x : ℚ) : Nat := (Int.floor x).toNat

/-- Arduino's `constrain(amt, low, high)` macro:
`amt < low ? low : (amt > high ? high : amt)`. -/
def constrain (amt low high : Nat) : Nat :=
  if amt < low then low else if amt > high then high else amt

/-- Round half to even on `ℚ`: the integer nearest to `m`, ties resolved
to the even neighbour (IEEE-754 default rounding of the significand). -/
def rne (m : ℚ) : ℤ :=
  if m - Int.floor m < 1/2 then Int.floor m
  else if 1/2 < m - Int.floor m then Int.floor m + 1
  else if 2 ∣ Int.floor m then Int.floor m else Int.floor m + 1

/-- IEEE-754 binary32 rounding (round to nearest, ties to even) of a
positive rational in the normal range: scale into `[2^23, 2^24)`, round
the 24-bit significand, scale back.  Every `double` operation of the AVR
source rounds its exact result through this function.  (Zero and negative
inputs never occur in this program; they are mapped to 0.) -/
def fl32 (x : ℚ) : ℚ :=
  if x ≤ 0 then 0
  else (rne (x / 2 ^ (Int.log 2 x - 23)) : ℚ) * 2 ^ (Int.log 2 x - 23)

/-- The source subexpression `1024.0/F_CPU` (the tick period in seconds),
one binary32 division of exactly representable operands. -/
def tick : ℚ := fl32 ((1024 : ℚ) / (F_CPU : ℚ))

/-- Modelled from the spec: `MAX_INTERVAL` is defined in `SysTimer.h`,
which is absent from `src/`.  §4.1 of the spec: the maximum interval is
the largest period representable by the 16-bit comparator at the fixed
prescaler and clock frequency — one tick is `1024 / F_CPU` seconds and
the comparator holds at most 65535, giving `(1024 / F_CPU) * 65535`
seconds (4.19424 s at 16 MHz, matching the source comment
"the maximum period is: (6.4 x 10^-5) * 65535 = 4.19424 sec").  The
macro's arithmetic is evaluated in the target's `double` = binary32, so
each operation rounds through `fl32`. -/
def MAX_INTERVAL : ℚ := fl32 (tick * 65535)

/-- Function `setTimerInterval(timerNum, msec)`: clamp `msec` to
`[1, uint16(MAX_INTERVAL * 1000)]`, compute the comparator value
`(interval/1000) / (1024/F_CPU) - 1` truncated to `uint16_t`, write it to
the channel's comparator register, and return the clamped interval.
Every `double` operation of the source rounds through `fl32` (binary32,
see the header comment). -/
def setTimerInterval (m : Nat) (timerNum : Nat) (msec : Nat)
    (s : AVRState) : AVRState × Nat :=
  let s := cli s
  let maximum : Nat := castU16 (fl32 (MAX_INTERVAL * 1000))
  let interval : Nat := constrain msec 1 maximum
  let elapsed : ℚ := fl32 (fl32 (interval : ℚ) / 1000)
  let temp : ℚ := fl32 (fl32 (elapsed / tick) - 1)
  let counter : Nat := castU16 temp
  let s :=
    match timerNum with
    | 0 => { s with timer1 := { s.timer1 with ocr := counter } }
    | 1 => if 2 ≤ m then
             { s with timer3 := { s.timer3 with ocr := counter } }
           else s
    | 2 => if m = 4 then
             { s with timer4 := { s.timer4 with ocr := counter } }
           else s
    | 3 => if m = 4 then
             { s with timer5 := { s.timer5 with ocr := counter } }
           else s
    | _ => s
  (sei s, interval)

/-- The comparator value `setTimerInterval`'s statements compute for a
clamped interval, factored out for the numeric proofs: cast to `double`,
divide by 1000, divide by the tick period, subtract 1 — each operation
rounded to binary32 — then truncate to `uint16_t`. -/
def comparator (interval : Nat) : Nat :=
  castU16 (fl32 (fl32 (fl32 (fl32 (interval : ℚ) / 1000) / tick) - 1))

/-- An `AVRTimer` object as the interrupt path sees it.  The class is
declared in `SysTimer.h` (absent from `src/`); the fields named here are
exactly those `_AVRCommonHandler` reads (`_repeating`, `_oneshot`,
`_callback`, `_callbackArg`) plus the channel assignment the spec gives a
Timer Object (§4.3).  The callback is a nullable function pointer,
modelled as an optional identifier; its opaque argument is a
pointer-sized value the model never interprets. -/
structure AVRTimer where
  channel : Nat
  repeating : Bool
  oneshot : Bool
  callback : Option Nat
  callbackArg : Nat
deriving DecidableEq, Repr

/-- An observable effect of the interrupt path: invocation of user
callback `fn` with argument `arg`. -/
inductive Event where
  | invoke (fn : Nat) (arg : Nat)
deriving DecidableEq, Repr

/-- The state shared by user code and the interrupt path: the hardware
registers, the dispatch table `_AVRTimerTable` (channel → pointer to the
registered `AVRTimer`, or null; `= { nullptr }` at startup), and the heap
of `AVRTimer` objects, addressed by pointer value. -/
structure SysState where
  hw : AVRState
  table : Nat → Option Nat
  timers : Nat → AVRTimer

/-- Modelled from the spec: `AVRTimer::disarm` is declared in
`SysTimer.h`, which is absent from `src/`.  §4.3 of the spec:
"`disarm()`: calls Register Driver `stop` (with interrupt disable) and
clears the Dispatch Table entry for its channel." -/
def disarm (m : Nat) (st : SysState) (tid : Nat) : SysState :=
  { st with
    hw := stopTimer m (st.timers tid).channel true st.hw
    table := fun c => if c = (st.timers tid).channel then none else st.table c }

/-- Shim `_AVRCommonHandler(AVRTimer* that)`, the shared interrupt handler:

    if (that->_repeating || that->_oneshot) {
       (*(that->_callback))(that->_callbackArg);
    }
    if (that->_oneshot) {
       that->_oneshot = false;
       that->disarm();
    }

The source tests neither `that` nor `that->_callback` against null: on a
null `that` the very first field read, and on a null `_callback` the
call through it, is undefined behavior, so the model yields `none` there.
On a defined run it yields the final state and the list of callback
invocations performed. -/
def _AVRCommonHandler (m : Nat) (st : SysState) (that : Option Nat) :
    Option (SysState × List Event) :=
  match that with
  | none => none
  | some tid =>
    let t := st.timers tid
    let fire : Option (List Event) :=
      if t.repeating || t.oneshot then
        match t.callback with
        | none => none
        | some f => some [Event.invoke f t.callbackArg]
      else some []
    match fire with
    | none => none
    | some evs =>
      if t.oneshot then
        let st' := { st with
          timers := Function.update st.timers tid { t with oneshot := false } }
        some (disarm m st' tid, evs)
      else some (st, evs)

/-- Vector `ISR(TIMER1_COMPA_vect) { _AVRCommonHandler(_AVRTimerTable[0]); }`:
the channel-0 interrupt entry point passes the (possibly null) dispatch
table entry straight to the common handler. -/
def ISR_TIMER1_COMPA (m : Nat) (st : SysState) : Option (SysState × List Event) :=
  _AVRCommonHandler m st (st.table 0)

/-- Startup state: hardware reset, every dispatch-table entry null, and an
arbitrary (all-fields-zero) heap. -/
def SysState.init : SysState :=
  { hw := AVRState.init
    table := fun _ => none
    timers := fun _ => ⟨0, false, false, none, 0⟩ }

/-- The effect of the handler statement `that->_oneshot = false`: the heap
with the one-shot flag of timer `tid` cleared. -/
def clearOneshot (st : SysState) (tid : Nat) : SysState :=
  { st with timers := Function.update st.timers tid { st.timers tid with oneshot := false } }

/-- A concrete state for witnesses: a one-shot timer (callback pointer 7,
argument 42, channel 0) registered in the dispatch table at channel 0. -/
def oneshotState : SysState :=
  { hw := AVRState.init
    table := fun c => if c = 0 then some 0 else none
    timers := fun _ => ⟨0, false, true, some 7, 42⟩ }

/-- A concrete state exercising a null callback: a one-shot timer whose
`_callback` is null, registered in the dispatch table at channel 0. -/
def nullCallbackState : SysState :=
  { hw := AVRState.init
    table := fun c => if c = 0 then some 0 else none
    timers := fun _ => ⟨0, false, true, none, 42⟩ }

/-! ## Helper lemmas -/

/-- Evaluation rule for the truncating cast. -/
lemma castU16_eq {x : ℚ} {n : ℕ} (h1 : (n : ℚ) ≤ x) (h2 : x < n + 1) :
    castU16 x = n := by
  have hf : ⌊x⌋ = (n : ℤ) := Int.floor_eq_iff.2 ⟨by exact_mod_cast h1, by push_cast; exact h2⟩
  simp [castU16, hf]

/-- Characterization of `Int.log 2` by two-sided powers-of-two bounds. -/
lemma log2_eq_of {x : ℚ} {e : ℤ} (h1 : (2:ℚ)^e ≤ x) (h2 : x < 2^(e+1)) :
    Int.log 2 x = e := by
  have hx : 0 < x := lt_of_lt_of_le (zpow_pos (by norm_num) e) h1
  have ha : (2:ℚ)^(Int.log 2 x) ≤ x := Int.zpow_log_le_self (by norm_num) hx
  have hb : x < (2:ℚ)^(Int.log 2 x + 1) := Int.lt_zpow_succ_log_self (by norm_num) x
  by_contra hne
  rcases lt_or_gt_of_ne hne with h | h
  · have : (2:ℚ)^(Int.log 2 x + 1) ≤ 2^e := zpow_le_zpow_right₀ (by norm_num) (by omega)
    linarith
  · have : (2:ℚ)^(e+1) ≤ 2^(Int.log 2 x) := zpow_le_zpow_right₀ (by norm_num) (by omega)
    linarith

/-- Evaluation rule for `rne` when the value rounds down. -/
lemma rne_eval_lt {m : ℚ} {f : ℤ} (hf1 : (f:ℚ) ≤ m) (hf2 : m < f + 1/2) :
    rne m = f := by
  have hfl : ⌊m⌋ = f := Int.floor_eq_iff.2 ⟨hf1, by linarith⟩
  rw [rne, hfl]
  rw [if_pos (by linarith)]

/-- Evaluation rule for `rne` when the value rounds up. -/
lemma rne_eval_gt {m : ℚ} {k : ℤ} (hf1 : (k:ℚ) - 1/2 < m) (hf2 : m < k) :
    rne m = k := by
  have hfl : ⌊m⌋ = k - 1 := Int.floor_eq_iff.2 ⟨by push_cast; linarith, by push_cast; linarith⟩
  rw [rne, hfl]
  rw [if_neg (by push_cast; linarith), if_pos (by push_cast; linarith)]
  omega

/-- Rounding to an integer moves a value by at most one half. -/
lemma rne_bound (m : ℚ) : |(rne m : ℚ) - m| ≤ 1/2 := by
  have h1 : (⌊m⌋ : ℚ) ≤ m := Int.floor_le m
  have h2 : m < ⌊m⌋ + 1 := Int.lt_floor_add_one m
  rw [rne]
  split_ifs <;> rw [abs_le] <;> constructor <;> push_cast <;> linarith

/-- Evaluation rule for `fl32` from the exponent bracket and the rounded
significand. -/
lemma fl32_eval {x : ℚ} {e k : ℤ}
    (h1 : (2:ℚ)^e ≤ x) (h2 : x < 2^(e+1)) (h3 : rne (x / 2^(e-23)) = k) :
    fl32 x = (k:ℚ) * 2^(e-23) := by
  have hx : 0 < x := lt_of_lt_of_le (zpow_pos (by norm_num) e) h1
  rw [fl32, if_neg (not_le.2 hx), log2_eq_of h1 h2, h3]

/-- Relative error of one binary32 rounding: at most one part in `2^24`
of the (positive) value. -/
lemma fl32_rel {x : ℚ} (hx : 0 < x) : |fl32 x - x| ≤ x / 16777216 := by
  set e : ℤ := Int.log 2 x with he
  have ha : (2:ℚ)^e ≤ x := Int.zpow_log_le_self (by norm_num) hx
  have hp : (0:ℚ) < 2^(e-23) := zpow_pos (by norm_num) _
  have hr := rne_bound (x / 2^(e-23))
  rw [fl32, if_neg (not_le.2 hx), ← he]
  have key : (rne (x / 2^(e-23)) : ℚ) * 2^(e-23) - x
      = ((rne (x / 2^(e-23)) : ℚ) - x / 2^(e-23)) * 2^(e-23) := by
    field_simp
  rw [key, abs_mul, abs_of_pos hp]
  have hsplit : (2:ℚ)^(e-23) = 2^e / 8388608 := by
    rw [zpow_sub₀ (by norm_num : (2:ℚ) ≠ 0)]
    norm_num
  calc |(rne (x / 2^(e-23)) : ℚ) - x / 2^(e-23)| * 2^(e-23)
      ≤ (1/2) * 2^(e-23) := mul_le_mul_of_nonneg_right hr (le_of_lt hp)
    _ = 2^e / 16777216 := by rw [hsplit]; ring
    _ ≤ x / 16777216 := by linarith

/-- Integers are fixed points of `rne`. -/
lemma rne_intCast (k : ℤ) : rne (k:ℚ) = k :=
  rne_eval_lt (le_refl _) (by linarith)

/-- A value that is an integer multiple of its own ulp is rounded to
itself. -/
lemma fl32_exact {x : ℚ} {e k : ℤ} (h1 : (2:ℚ)^e ≤ x) (h2 : x < 2^(e+1))
    (hk : x = (k : ℚ) * 2^(e-23)) : fl32 x = x := by
  have hp : (0:ℚ) < 2^(e-23) := zpow_pos (by norm_num) _
  have h3 : rne (x / 2^(e-23)) = k := by
    have hq : x / 2^(e-23) = (k:ℚ) := by
      rw [hk]
      field_simp
    rw [hq, rne_intCast]
  rw [fl32_eval h1 h2 h3, ← hk]

/-- Natural numbers below `2^24` are exactly representable in binary32. -/
lemma fl32_natCast {n : ℕ} (h1 : 1 ≤ n) (h2 : n < 16777216) : fl32 (n:ℚ) = n := by
  set e : ℤ := Int.log 2 (n:ℚ) with he
  have hx : (0:ℚ) < n := by exact_mod_cast h1
  have ha : (2:ℚ)^e ≤ n := Int.zpow_log_le_self (by norm_num) hx
  have hb : (n:ℚ) < (2:ℚ)^(e+1) := Int.lt_zpow_succ_log_self (by norm_num) _
  have he0 : 0 ≤ e := by
    by_contra hneg
    have hle : (2:ℚ)^(e+1) ≤ 2^(0:ℤ) := zpow_le_zpow_right₀ (by norm_num) (by omega)
    have h1q : (1:ℚ) ≤ n := by exact_mod_cast h1
    simp only [zpow_zero] at hle
    linarith
  have he23 : e ≤ 23 := by
    by_contra hgt
    have hge : (2:ℚ)^(24:ℤ) ≤ 2^e := zpow_le_zpow_right₀ (by norm_num) (by omega)
    have h2q : (n:ℚ) < 16777216 := by exact_mod_cast h2
    norm_num at hge
    linarith
  have hk : (n:ℚ) = ((n * 2^(23-e).toNat : ℕ) : ℚ) * 2^(e-23) := by
    push_cast
    rw [← zpow_natCast (2:ℚ) (23-e).toNat, Int.toNat_of_nonneg (by omega : (0:ℤ) ≤ 23 - e),
      mul_assoc, ← zpow_add₀ (by norm_num : (2:ℚ) ≠ 0)]
    norm_num
  have hfix := fl32_exact ha hb hk
  rw [hfix]

/-- Binary32 value of the tick period `1024.0/F_CPU`. -/
lemma tick_eq : tick = 8796093/137438953472 := by
  have hx : (1024:ℚ) / (F_CPU:ℚ) = 1/15625 := by norm_num [F_CPU]
  rw [tick, hx]
  have h3 : rne ((1/15625:ℚ) / 2^((-14:ℤ)-23)) = 8796093 := by
    have hm : (1/15625:ℚ) / 2^((-14:ℤ)-23) = 137438953472/15625 := by norm_num
    rw [hm]
    exact rne_eval_lt (by norm_num) (by norm_num)
  have h := fl32_eval (by norm_num) (by norm_num) h3
  rw [h]
  norm_num

/-- Binary32 value of the `MAX_INTERVAL` macro `(1024.0/F_CPU) * 65535.0`. -/
lemma MAX_INTERVAL_eq : MAX_INTERVAL = 8795959/2097152 := by
  have hx : tick * 65535 = 576451954755/137438953472 := by
    rw [tick_eq]
    norm_num
  rw [MAX_INTERVAL, hx]
  have h3 : rne ((576451954755/137438953472 : ℚ) / 2^((2:ℤ)-23)) = 8795959 := by
    have hm : (576451954755/137438953472 : ℚ) / 2^((2:ℤ)-23) = 576451954755/65536 := by
      norm_num
    rw [hm]
    exact rne_eval_gt (by norm_num) (by norm_num)
  have h := fl32_eval (by norm_num) (by norm_num) h3
  rw [h]
  norm_num

/-- The clamp bound `uint16(MAX_INTERVAL * 1000.0)` evaluates to 4194 ms
(the final multiplication rounded to binary32 like every other operation). -/
lemma maximum_eq : castU16 (fl32 (MAX_INTERVAL * 1000)) = 4194 := by
  have hx : MAX_INTERVAL * 1000 = 1099494875/262144 := by
    rw [MAX_INTERVAL_eq]
    norm_num
  rw [hx]
  have h3 : rne ((1099494875/262144 : ℚ) / 2^((12:ℤ)-23)) = 8589804 := by
    have hm : (1099494875/262144 : ℚ) / 2^((12:ℤ)-23) = 1099494875/128 := by norm_num
    rw [hm]
    exact rne_eval_gt (by norm_num) (by norm_num)
  have h := fl32_eval (by norm_num) (by norm_num) h3
  rw [h]
  have hv : ((8589804:ℤ):ℚ) * 2^((12:ℤ)-23) = 2147451/512 := by norm_num
  rw [hv]
  apply castU16_eq <;> norm_num

/-- The exact product `MAX_INTERVAL * 1000` also truncates to 4194 (the
claimed maximum interval in milliseconds). -/
lemma maximum_noRound_eq : castU16 (MAX_INTERVAL * 1000) = 4194 := by
  rw [MAX_INTERVAL_eq]
  apply castU16_eq <;> norm_num

/-- Closed form of the comparator computation: for an interval of `n ≥ 1`
milliseconds, truncating `(n/1000) / (1024/F_CPU) - 1` gives
`n * 125 / 8 - 1` (natural-number division). -/
lemma counter_formula (n : ℕ) (h : 1 ≤ n) :
    castU16 ((n : ℚ) / 1000 / ((1024 : ℚ) / (F_CPU : ℚ)) - 1) = n * 125 / 8 - 1 := by
  have hq : 15 ≤ n * 125 / 8 := by
    calc 15 = 1 * 125 / 8 := by norm_num
    _ ≤ n * 125 / 8 := Nat.div_le_div_right (Nat.mul_le_mul_right 125 h)
  have hx : (n : ℚ) / 1000 / ((1024 : ℚ) / (F_CPU : ℚ)) = ((n * 125 : ℕ) : ℚ) / ((8 : ℕ) : ℚ) := by
    have hc : ((F_CPU : ℕ) : ℚ) = 16000000 := by norm_num [F_CPU]
    rw [hc]
    push_cast
    ring
  rw [hx]
  have h0 : (0 : ℚ) ≤ ((n * 125 : ℕ) : ℚ) / ((8 : ℕ) : ℚ) := by positivity
  have hfl : ⌊((n * 125 : ℕ) : ℚ) / ((8 : ℕ) : ℚ)⌋ = ((n * 125 / 8 : ℕ) : ℤ) := by
    have e1 : ⌊((n * 125 : ℕ) : ℚ) / ((8 : ℕ) : ℚ)⌋₊ = n * 125 / 8 :=
      Nat.floor_div_eq_div (n * 125) 8
    have e2 := Int.floor_toNat (α := ℚ) (((n * 125 : ℕ) : ℚ) / ((8 : ℕ) : ℚ))
    have e3 := Int.toNat_of_nonneg (Int.floor_nonneg.2 h0)
    omega
  unfold castU16
  rw [show (1 : ℚ) = ((1 : ℤ) : ℚ) by norm_num, Int.floor_sub_int, hfl]
  omega

/-- Truncation endgame: a value within 1/32 of `q - 1 + r/8` (with
`r < 8`) truncates to `q - 1`, except that for `r = 0` it may also
truncate to `q - 2`. -/
lemma floor_endgame {t : ℚ} {q r : ℕ} (hq15 : 15 ≤ q) (hr : r < 8)
    (hlo : (q:ℚ) + (r:ℚ)/8 - 1 - 1/32 ≤ t) (hhi : t ≤ (q:ℚ) + (r:ℚ)/8 - 1 + 1/32) :
    ⌊t⌋.toNat = q - 1 ∨ (r = 0 ∧ ⌊t⌋.toNat = q - 1 - 1) := by
  rcases Nat.eq_zero_or_pos r with hr0 | hrpos
  · subst hr0
    push_cast at hlo hhi
    have hfloor_le : ⌊t⌋ ≤ (q:ℤ) - 1 := by
      have hlt : ⌊t⌋ < (q:ℤ) := Int.floor_lt.2 (by push_cast; linarith)
      omega
    have hfloor_ge : (q:ℤ) - 2 ≤ ⌊t⌋ := by
      apply Int.le_floor.2
      push_cast
      linarith
    rcases (by omega : ⌊t⌋ = (q:ℤ) - 1 ∨ ⌊t⌋ = (q:ℤ) - 2) with hf | hf
    · left
      omega
    · right
      exact ⟨rfl, by omega⟩
  · left
    have h1r : (1:ℚ) ≤ (r:ℚ) := by exact_mod_cast hrpos
    have h7r : (r:ℚ) ≤ 7 := by exact_mod_cast (by omega : r ≤ 7)
    have hfl : ⌊t⌋ = (q:ℤ) - 1 := by
      rw [Int.floor_eq_iff]
      constructor
      · push_cast
        linarith
      · push_cast
        linarith
    omega

/-- Universal accuracy of the binary32 comparator pipeline: for every
clamped interval the computed comparator equals the exact value
`interval * 125 / 8 - 1`, or falls one short — the latter only possible
when the interval is a multiple of 8 ms.  The proof propagates the
half-ulp relative error bound of `fl32` through the three rounded
operations: the total error stays below 1/32, while the exact value has
fractional part a multiple of 1/8, so only an integral exact value can
be crossed, and only downward by one. -/
lemma comparator_bound (n : ℕ) (hn1 : 1 ≤ n) (hn2 : n ≤ 4194) :
    comparator n = n * 125 / 8 - 1
    ∨ (n % 8 = 0 ∧ comparator n = n * 125 / 8 - 1 - 1) := by
  have hq15 : 15 ≤ n * 125 / 8 := by
    calc 15 = 1 * 125 / 8 := by norm_num
    _ ≤ n * 125 / 8 := Nat.div_le_div_right (Nat.mul_le_mul_right 125 hn1)
  have hqr : n * 125 = 8 * (n * 125 / 8) + n * 125 % 8 := (Nat.div_add_mod _ _).symm
  have hrlt : n * 125 % 8 < 8 := Nat.mod_lt _ (by norm_num)
  unfold comparator
  rw [fl32_natCast hn1 (by omega)]
  have hN1 : (1:ℚ) ≤ (n:ℚ) := by exact_mod_cast hn1
  have hN2 : (n:ℚ) ≤ 4194 := by exact_mod_cast hn2
  have hy0 : (0:ℚ) < (n:ℚ) / 1000 := by positivity
  obtain ⟨y, hy⟩ : ∃ y, fl32 ((n:ℚ) / 1000) = y := ⟨_, rfl⟩
  rw [hy]
  have hyr := abs_le.mp (fl32_rel hy0)
  rw [hy] at hyr
  have hypos : (0:ℚ) < y := by nlinarith [hyr.1]
  have hw : y / tick = y * (137438953472/8796093) := by
    rw [tick_eq]
    ring
  have hw0 : (0:ℚ) < y / tick := by
    rw [hw]
    positivity
  obtain ⟨z, hz⟩ : ∃ z, fl32 (y / tick) = z := ⟨_, rfl⟩
  rw [hz]
  have hzr := abs_le.mp (fl32_rel hw0)
  rw [hz, hw] at hzr
  have hz1 : (1:ℚ) < z := by nlinarith [hzr.1, hyr.1]
  obtain ⟨t, ht⟩ : ∃ t, fl32 (z - 1) = t := ⟨_, rfl⟩
  rw [ht]
  have ht0 : (0:ℚ) < z - 1 := by linarith
  have htr := abs_le.mp (fl32_rel ht0)
  rw [ht] at htr
  have hlo : (n:ℚ) * (125/8) - 1 - 1/32 ≤ t := by nlinarith [htr.1, hzr.1, hyr.1]
  have hhi : t ≤ (n:ℚ) * (125/8) - 1 + 1/32 := by nlinarith [htr.2, hzr.2, hyr.2]
  have hEq : (n:ℚ) * (125/8) = ((n * 125 / 8 : ℕ) : ℚ) + ((n * 125 % 8 : ℕ) : ℚ) / 8 := by
    have hc : ((n * 125 : ℕ) : ℚ) = 8 * ((n * 125 / 8 : ℕ) : ℚ) + ((n * 125 % 8 : ℕ) : ℚ) := by
      exact_mod_cast hqr
    push_cast at hc ⊢
    linarith
  rw [hEq] at hlo hhi
  simp only [castU16]
  rcases floor_endgame hq15 hrlt hlo hhi with hf | ⟨hr0, hf⟩
  · left
    exact hf
  · right
    exact ⟨by omega, hf⟩

/-- The lower clamp bound is respected. -/
lemma one_le_constrain (msec high : ℕ) (hh : 1 ≤ high) :
    1 ≤ constrain msec 1 high := by
  unfold constrain
  split
  · omega
  · split <;> omega

/-- The Arduino clamp written with `min`/`max`. -/
lemma constrain_eq (msec : ℕ) : constrain msec 1 4194 = min (max msec 1) 4194 := by
  unfold constrain
  split
  · omega
  · split <;> omega

/-- The value `setTimerInterval` returns is the clamped interval, for every
channel count, channel and prior state. -/
lemma setTimerInterval_snd (m tN msec : ℕ) (s : AVRState) :
    (setTimerInterval m tN msec s).2 = constrain msec 1 4194 := by
  simp only [setTimerInterval, maximum_eq]

/-- The comparator value `setTimerInterval` writes for channel 0. -/
lemma setTimerInterval_ocr0 (m msec : ℕ) (s : AVRState) :
    ((setTimerInterval m 0 msec s).1).timer1.ocr =
      comparator (constrain msec 1 4194) := by
  simp only [setTimerInterval, comparator, maximum_eq, sei]

/-- Binary32 evaluation of the comparator pipeline at 1 ms. -/
lemma comparator_one : comparator 1 = 14 := by
  unfold comparator
  rw [fl32_natCast (by norm_num) (by norm_num)]
  have e0 : ((1:ℕ):ℚ) / 1000 = (1/1000 : ℚ) := by
    norm_num
  rw [e0]
  have hA : fl32 (1/1000 : ℚ) = (8589935/8589934592 : ℚ) := by
    have h3 : rne ((1/1000:ℚ) / 2^((-10:ℤ)-23)) = 8589935 := by
      have hm : (1/1000:ℚ) / 2^((-10:ℤ)-23) = (1073741824/125:ℚ) := by norm_num
      rw [hm]
      exact rne_eval_gt (by norm_num) (by norm_num)
    have h := fl32_eval (by norm_num) (by norm_num) h3
    rw [h]
    norm_num
  rw [hA]
  have e1 : (8589935/8589934592 : ℚ) / tick = (137438960/8796093 : ℚ) := by
    rw [tick_eq]; norm_num
  rw [e1]
  have hB : fl32 (137438960/8796093 : ℚ) = (16384001/1048576 : ℚ) := by
    have h3 : rne ((137438960/8796093:ℚ) / 2^((3:ℤ)-23)) = 16384001 := by
      have hm : (137438960/8796093:ℚ) / 2^((3:ℤ)-23) = (144115194920960/8796093:ℚ) := by norm_num
      rw [hm]
      exact rne_eval_gt (by norm_num) (by norm_num)
    have h := fl32_eval (by norm_num) (by norm_num) h3
    rw [h]
    norm_num
  rw [hB]
  have e2 : (16384001/1048576 : ℚ) - 1 = (15335425/1048576 : ℚ) := by
    norm_num
  rw [e2]
  have hC : fl32 (15335425/1048576 : ℚ) = (15335425/1048576 : ℚ) := by
    have h3 : rne ((15335425/1048576:ℚ) / 2^((3:ℤ)-23)) = 15335425 := by
      have hm : (15335425/1048576:ℚ) / 2^((3:ℤ)-23) = (15335425:ℚ) := by norm_num
      rw [hm]
      exact rne_eval_lt (by norm_num) (by norm_num)
    have h := fl32_eval (by norm_num) (by norm_num) h3
    rw [h]
    norm_num
  rw [hC]
  apply castU16_eq <;> norm_num

/-- Binary32 evaluation of the comparator pipeline at 4194 ms. -/
lemma comparator_4194 : comparator 4194 = 65530 := by
  unfold comparator
  rw [fl32_natCast (by norm_num) (by norm_num)]
  have e0 : ((4194:ℕ):ℚ) / 1000 = (2097/500 : ℚ) := by
    norm_num
  rw [e0]
  have hA : fl32 (2097/500 : ℚ) = (8795455/2097152 : ℚ) := by
    have h3 : rne ((2097/500:ℚ) / 2^((2:ℤ)-23)) = 8795455 := by
      have hm : (2097/500:ℚ) / 2^((2:ℤ)-23) = (1099431936/125:ℚ) := by norm_num
      rw [hm]
      exact rne_eval_lt (by norm_num) (by norm_num)
    have h := fl32_eval (by norm_num) (by norm_num) h3
    rw [h]
    norm_num
  rw [hA]
  have e1 : (8795455/2097152 : ℚ) / tick = (576418938880/8796093 : ℚ) := by
    rw [tick_eq]; norm_num
  rw [e1]
  have hB : fl32 (576418938880/8796093 : ℚ) = (16775999/256 : ℚ) := by
    have h3 : rne ((576418938880/8796093:ℚ) / 2^((15:ℤ)-23)) = 16775999 := by
      have hm : (576418938880/8796093:ℚ) / 2^((15:ℤ)-23) = (147563248353280/8796093:ℚ) := by norm_num
      rw [hm]
      exact rne_eval_lt (by norm_num) (by norm_num)
    have h := fl32_eval (by norm_num) (by norm_num) h3
    rw [h]
    norm_num
  rw [hB]
  have e2 : (16775999/256 : ℚ) - 1 = (16775743/256 : ℚ) := by
    norm_num
  rw [e2]
  have hC : fl32 (16775743/256 : ℚ) = (16775743/256 : ℚ) := by
    have h3 : rne ((16775743/256:ℚ) / 2^((15:ℤ)-23)) = 16775743 := by
      have hm : (16775743/256:ℚ) / 2^((15:ℤ)-23) = (16775743:ℚ) := by norm_num
      rw [hm]
      exact rne_eval_lt (by norm_num) (by norm_num)
    have h := fl32_eval (by norm_num) (by norm_num) h3
    rw [h]
    norm_num
  rw [hC]
  apply castU16_eq <;> norm_num

/-- Binary32 evaluation of the comparator pipeline at 520 ms: the exact
quotient `520/1000 / (1024/F_CPU) - 1 = 8124.25` accumulates three
rounding errors and comes out just below 8124, so truncation yields
8123. -/
lemma comparator_520 : comparator 520 = 8123 := by
  unfold comparator
  rw [fl32_natCast (by norm_num) (by norm_num)]
  have e0 : ((520:ℕ):ℚ) / 1000 = (13/25 : ℚ) := by
    norm_num
  rw [e0]
  have hA : fl32 (13/25 : ℚ) = (1090519/2097152 : ℚ) := by
    have h3 : rne ((13/25:ℚ) / 2^((-1:ℤ)-23)) = 8724152 := by
      have hm : (13/25:ℚ) / 2^((-1:ℤ)-23) = (218103808/25:ℚ) := by norm_num
      rw [hm]
      exact rne_eval_lt (by norm_num) (by norm_num)
    have h := fl32_eval (by norm_num) (by norm_num) h3
    rw [h]
    norm_num
  rw [hA]
  have e1 : (1090519/2097152 : ℚ) / tick = (71468253184/8796093 : ℚ) := by
    rw [tick_eq]; norm_num
  rw [e1]
  have hB : fl32 (71468253184/8796093 : ℚ) = (16639999/2048 : ℚ) := by
    have h3 : rne ((71468253184/8796093:ℚ) / 2^((12:ℤ)-23)) = 16639999 := by
      have hm : (71468253184/8796093:ℚ) / 2^((12:ℤ)-23) = (146366982520832/8796093:ℚ) := by norm_num
      rw [hm]
      exact rne_eval_lt (by norm_num) (by norm_num)
    have h := fl32_eval (by norm_num) (by norm_num) h3
    rw [h]
    norm_num
  rw [hB]
  have e2 : (16639999/2048 : ℚ) - 1 = (16637951/2048 : ℚ) := by
    norm_num
  rw [e2]
  have hC : fl32 (16637951/2048 : ℚ) = (16637951/2048 : ℚ) := by
    have h3 : rne ((16637951/2048:ℚ) / 2^((12:ℤ)-23)) = 16637951 := by
      have hm : (16637951/2048:ℚ) / 2^((12:ℤ)-23) = (16637951:ℚ) := by norm_num
      rw [hm]
      exact rne_eval_lt (by norm_num) (by norm_num)
    have h := fl32_eval (by norm_num) (by norm_num) h3
    rw [h]
    norm_num
  rw [hC]
  apply castU16_eq <;> norm_num

/-! ## Claims -/

/-- C1: the claim says that when the dispatch-table entry for a channel is
null, the interrupt shim returns immediately without dereferencing it and
with zero observable effects.  The source has no such guard: the ISR
passes `_AVRTimerTable[0]` (null in the startup state) straight to
`_AVRCommonHandler`, whose first action reads `that->_repeating`.  In the
embedding this run therefore has no defined result (`none`): the code
dereferences the null entry instead of returning. -/
theorem C1_spurious_interrupt_null_deref :
    SysState.init.table 0 = none ∧ ISR_TIMER1_COMPA 1 SysState.init = none :=
  ⟨rfl, rfl⟩

/-- C2: the claim says an armed timer whose stored callback pointer is null
at fire time is silently skipped by the shim.  The source guards the call
only by `_repeating || _oneshot`, never testing `_callback` for null, so
for an armed timer with a null callback it calls through the null function
pointer.  In the embedding this run has no defined result (`none`) instead
of being a no-op. -/
theorem C2_null_callback_deref :
    (nullCallbackState.timers 0).oneshot = true
    ∧ (nullCallbackState.timers 0).callback = none
    ∧ _AVRCommonHandler 1 nullCallbackState (nullCallbackState.table 0) = none :=
  ⟨rfl, rfl, rfl⟩

/-- C3: for every requested period `msec` (a `uint16_t`), `setTimerInterval`
returns the period clamped to `[1, MAX_INTERVAL_MS]` — not the comparator
value — where `MAX_INTERVAL_MS = uint16(MAX_INTERVAL * 1000) = 4194` is
the largest period representable by the 16-bit comparator at prescaler
1024 and 16 MHz: requests above the maximum come back as 4194, requests
below 1 come back as 1, and in-range requests come back unchanged. -/
theorem C3_interval_clamped_and_returned (m tN msec : ℕ) (s : AVRState)
    (hmsec : msec ≤ 65535) :
    1 ≤ (setTimerInterval m tN msec s).2
    ∧ (setTimerInterval m tN msec s).2 ≤ 4194
    ∧ (4194 < msec → (setTimerInterval m tN msec s).2 = 4194)
    ∧ (msec = 0 → (setTimerInterval m tN msec s).2 = 1)
    ∧ (1 ≤ msec → msec ≤ 4194 → (setTimerInterval m tN msec s).2 = msec)
    ∧ castU16 (MAX_INTERVAL * 1000) = 4194 := by
  rw [setTimerInterval_snd, constrain_eq]
  refine ⟨?_, ?_, ?_, ?_, ?_, maximum_noRound_eq⟩ <;> omega

/-- Witness for C3 at the concrete input `msec = 5000`. -/
theorem C3_interval_clamped_and_returned_witness :
    1 ≤ (setTimerInterval 2 0 5000 AVRState.init).2
    ∧ (setTimerInterval 2 0 5000 AVRState.init).2 ≤ 4194
    ∧ (4194 < 5000 → (setTimerInterval 2 0 5000 AVRState.init).2 = 4194)
    ∧ (5000 = 0 → (setTimerInterval 2 0 5000 AVRState.init).2 = 1)
    ∧ (1 ≤ 5000 → 5000 ≤ 4194 → (setTimerInterval 2 0 5000 AVRState.init).2 = 5000)
    ∧ castU16 (MAX_INTERVAL * 1000) = 4194 :=
  C3_interval_clamped_and_returned 2 0 5000 AVRState.init (by decide)

/-- C4 counterexample: the claim says the written comparator always equals
round-down((period_s / tick_s) - 1).  At a requested period of 520 ms the
exact formula gives floor(8125.25 - 1) = 8124, but the code computes the
quotient in binary32 (`double` on AVR): three accumulated rounding errors
leave `temp` just below 8124 and the truncation writes 8123. -/
theorem C4_comparator_counterexample :
    (setTimerInterval 2 0 520 AVRState.init).1.timer1.ocr = 8123
    ∧ castU16 ((520 : ℚ) / 1000 / ((1024 : ℚ) / (F_CPU : ℚ)) - 1) = 8124
    ∧ (setTimerInterval 2 0 520 AVRState.init).1.timer1.ocr
        ≠ castU16 ((520 : ℚ) / 1000 / ((1024 : ℚ) / (F_CPU : ℚ)) - 1) := by
  have h := setTimerInterval_ocr0 2 520 AVRState.init
  rw [show constrain 520 1 4194 = 520 from rfl, comparator_520] at h
  have hf : castU16 ((520 : ℚ) / 1000 / ((1024 : ℚ) / (F_CPU : ℚ)) - 1) = 8124 := by
    have := counter_formula 520 (by norm_num)
    norm_num at this ⊢
    exact this
  exact ⟨h, hf, by rw [h, hf]; norm_num⟩

/-- C4 amended: for every requested period and every valid channel, the
round-down formula floor((period_s / tick_s) - 1) (with
tick_s = 1024/F_CPU and period_s the clamped period over 1000) evaluates
to `interval * 125 / 8 - 1`, and the comparator value the code writes
either equals that formula or falls short of it by exactly one; the
deficit of one can occur only when the clamped period is a multiple of
8 ms (the periods whose exact comparator is an integer, where the
binary32 rounding of the three `double` operations can land just below
it). -/
theorem C4_comparator_formula_amended (m tN msec : ℕ) (s : AVRState)
    (hv : tN = 0 ∨ (tN = 1 ∧ 2 ≤ m) ∨ ((tN = 2 ∨ tN = 3) ∧ m = 4)) :
    castU16 (((constrain msec 1 4194 : ℕ) : ℚ) / 1000 / ((1024 : ℚ) / (F_CPU : ℚ)) - 1)
        = constrain msec 1 4194 * 125 / 8 - 1
    ∧ (((setTimerInterval m tN msec s).1.chRegs tN).ocr
          = constrain msec 1 4194 * 125 / 8 - 1
        ∨ (constrain msec 1 4194 % 8 = 0
            ∧ ((setTimerInterval m tN msec s).1.chRegs tN).ocr
                = constrain msec 1 4194 * 125 / 8 - 1 - 1)) := by
  have h1 := one_le_constrain msec 4194 (by norm_num)
  have hle : constrain msec 1 4194 ≤ 4194 := by
    rw [constrain_eq]
    omega
  have hb := comparator_bound (constrain msec 1 4194) h1 hle
  have hocr : ((setTimerInterval m tN msec s).1.chRegs tN).ocr
      = comparator (constrain msec 1 4194) := by
    rcases hv with h | ⟨h, hm⟩ | ⟨h | h, hm⟩ <;> subst h
    · simp only [setTimerInterval, comparator, maximum_eq, AVRState.chRegs, sei]
    · simp only [setTimerInterval, comparator, maximum_eq, AVRState.chRegs, sei, if_pos hm]
    · subst hm
      simp only [setTimerInterval, comparator, maximum_eq, AVRState.chRegs, sei, if_pos rfl,
        if_true]
    · subst hm
      simp only [setTimerInterval, comparator, maximum_eq, AVRState.chRegs, sei, if_pos rfl,
        if_true]
  rw [hocr]
  exact ⟨counter_formula _ h1, hb⟩

/-- Witness for the amended C4 at channel 1 with `SYST_MAX_TIMERS = 4`,
`msec = 100`. -/
theorem C4_comparator_formula_amended_witness :
    castU16 (((constrain 100 1 4194 : ℕ) : ℚ) / 1000 / ((1024 : ℚ) / (F_CPU : ℚ)) - 1)
        = constrain 100 1 4194 * 125 / 8 - 1
    ∧ (((setTimerInterval 4 1 100 AVRState.init).1.chRegs 1).ocr
          = constrain 100 1 4194 * 125 / 8 - 1
        ∨ (constrain 100 1 4194 % 8 = 0
            ∧ ((setTimerInterval 4 1 100 AVRState.init).1.chRegs 1).ocr
                = constrain 100 1 4194 * 125 / 8 - 1 - 1)) :=
  C4_comparator_formula_amended 4 1 100 AVRState.init (Or.inr (Or.inl ⟨rfl, by decide⟩))

/-- C5 counterexample: the claim says requesting 4194 ms yields comparator
value 65534; the code writes 65530 (the double computation truncates
`4194 * 15.625 - 1 = 65530.25`, not `MAX_INTERVAL_exact / tick - 1`). -/
theorem C5_comparator_counterexample :
    (setTimerInterval 2 0 4194 AVRState.init).1.timer1.ocr = 65530 ∧
    (setTimerInterval 2 0 4194 AVRState.init).1.timer1.ocr ≠ 65534 := by
  have h := setTimerInterval_ocr0 2 4194 AVRState.init
  rw [show constrain 4194 1 4194 = 4194 from rfl, comparator_4194] at h
  exact ⟨h, by rw [h]; norm_num⟩

/-- C5 amended: with clock 16 MHz and prescaler 1024, requesting 1 ms
yields comparator 14 and achieved period 1 ms; requesting 4194 ms yields
comparator 65530 and achieved period 4194 ms; requesting 5000 ms is
clamped to the maximum 4194 ms (writing the same comparator 65530). -/
theorem C5_concrete_scenario_amended :
    (setTimerInterval 2 0 1 AVRState.init).2 = 1
    ∧ (setTimerInterval 2 0 1 AVRState.init).1.timer1.ocr = 14
    ∧ (setTimerInterval 2 0 4194 AVRState.init).2 = 4194
    ∧ (setTimerInterval 2 0 4194 AVRState.init).1.timer1.ocr = 65530
    ∧ (setTimerInterval 2 0 5000 AVRState.init).2 = 4194
    ∧ (setTimerInterval 2 0 5000 AVRState.init).1.timer1.ocr = 65530
    ∧ castU16 (MAX_INTERVAL * 1000) = 4194 := by
  have h1 := setTimerInterval_ocr0 2 1 AVRState.init
  have h2 := setTimerInterval_ocr0 2 4194 AVRState.init
  have h3 := setTimerInterval_ocr0 2 5000 AVRState.init
  rw [show constrain 1 1 4194 = 1 from rfl, comparator_one] at h1
  rw [show constrain 4194 1 4194 = 4194 from rfl, comparator_4194] at h2
  rw [show constrain 5000 1 4194 = 4194 from rfl, comparator_4194] at h3
  refine ⟨?_, h1, ?_, h2, ?_, h3, maximum_noRound_eq⟩ <;>
    rw [setTimerInterval_snd] <;> rfl

/-- C6: when a one-shot timer (with a non-null callback) fires, the shared
handler invokes the stored callback exactly once (the event trace of the
run is one invocation with the stored argument), clears the one-shot flag,
and disarms the object: afterwards its dispatch-table entry is null (it no
longer dispatches) and its channel's hardware is stopped.  A timer whose
mode is neither repeating nor one-shot gets no callback invocation and no
state change at all. -/
theorem C6_oneshot_exactly_once (m : ℕ) (st : SysState) (tid f : ℕ) :
    ((st.timers tid).oneshot = true → (st.timers tid).callback = some f →
      ∃ st', _AVRCommonHandler m st (some tid) =
          some (st', [Event.invoke f (st.timers tid).callbackArg])
        ∧ (st'.timers tid).oneshot = false
        ∧ st'.table (st.timers tid).channel = none
        ∧ st'.hw = stopTimer m (st.timers tid).channel true st.hw)
    ∧ ((st.timers tid).repeating = false → (st.timers tid).oneshot = false →
      _AVRCommonHandler m st (some tid) = some (st, [])) := by
  constructor
  · intro hos hcb
    have hrun : _AVRCommonHandler m st (some tid) =
        some (disarm m (clearOneshot st tid) tid,
              [Event.invoke f (st.timers tid).callbackArg]) := by
      simp only [_AVRCommonHandler, clearOneshot, hos, hcb, Bool.or_true, if_true]
    refine ⟨_, hrun, ?_, ?_, ?_⟩
    · simp [disarm, clearOneshot, Function.update_same]
    · simp [disarm, clearOneshot, Function.update_same]
    · simp [disarm, clearOneshot, Function.update_same]
  · intro h1 h2
    simp [_AVRCommonHandler, h1, h2]

/-- Witness for C6: the concrete one-shot timer of `oneshotState`. -/
theorem C6_oneshot_exactly_once_witness :
    ∃ st', _AVRCommonHandler 2 oneshotState (some 0) =
        some (st', [Event.invoke 7 42])
      ∧ (st'.timers 0).oneshot = false
      ∧ st'.table 0 = none
      ∧ st'.hw = stopTimer 2 0 true oneshotState.hw :=
  (C6_oneshot_exactly_once 2 oneshotState 0 7).1 rfl rfl

/-- C7: `stopTimer` is idempotent — for every channel count, channel,
`disableInterrupts` flag and machine state, running it twice with the same
arguments leaves exactly the state a single run leaves. -/
theorem C7_stopTimer_idempotent (m c : ℕ) (d : Bool) (s : AVRState) :
    stopTimer m c d (stopTimer m c d s) = stopTimer m c d s := by
  rcases c with _ | _ | _ | _ | c <;> cases d <;>
    simp only [stopTimer, cli, sei] <;> split_ifs <;> rfl

/-- C8: each driver operation on channel `c` leaves the control, mask and
compare registers of every other channel unchanged, for every channel
count, flag, interval and prior state. -/
theorem C8_cross_channel_frame (m c c2 msec : ℕ) (d : Bool) (s : AVRState)
    (hne : c2 ≠ c) (hc2 : c2 < 4) :
    (stopTimer m c d s).chRegs c2 = s.chRegs c2
    ∧ (initTimer m c s).chRegs c2 = s.chRegs c2
    ∧ (startTimer m c s).chRegs c2 = s.chRegs c2
    ∧ ((setTimerInterval m c msec s).1).chRegs c2 = s.chRegs c2 := by
  refine ⟨?_, ?_, ?_, ?_⟩ <;>
    rcases c with _ | _ | _ | _ | c <;>
      rcases c2 with _ | _ | _ | _ | c2 <;>
        simp only [stopTimer, initTimer, startTimer, setTimerInterval, cli, sei,
          AVRState.chRegs] <;>
        (try omega) <;> (try split_ifs) <;>
        first
          | omega
          | rfl

/-- Witness for C8: an operation on channel 0 leaves channel 1 untouched. -/
theorem C8_cross_channel_frame_witness :
    (stopTimer 2 0 true AVRState.init).chRegs 1 = AVRState.init.chRegs 1
    ∧ (initTimer 2 0 AVRState.init).chRegs 1 = AVRState.init.chRegs 1
    ∧ (startTimer 2 0 AVRState.init).chRegs 1 = AVRState.init.chRegs 1
    ∧ ((setTimerInterval 2 0 100 AVRState.init).1).chRegs 1 = AVRState.init.chRegs 1 :=
  C8_cross_channel_frame 2 0 1 100 true AVRState.init (by decide) (by decide)

/-- C9: for a channel id at or beyond `SYST_MAX_TIMERS` (channel count at
least 1), none of `stopTimer`, `initTimer`, `startTimer`,
`setTimerInterval` writes any timer register (every channel's registers
are exactly as before: the `switch` falls through), and `setTimerInterval`
still returns the clamped interval as if it had succeeded. -/
theorem C9_out_of_range_no_write (m c msec : ℕ) (d : Bool) (s : AVRState)
    (hm : 1 ≤ m) (hc : m ≤ c) :
    (∀ ch, (stopTimer m c d s).chRegs ch = s.chRegs ch)
    ∧ (∀ ch, (initTimer m c s).chRegs ch = s.chRegs ch)
    ∧ (∀ ch, (startTimer m c s).chRegs ch = s.chRegs ch)
    ∧ (∀ ch, ((setTimerInterval m c msec s).1).chRegs ch = s.chRegs ch)
    ∧ (setTimerInterval m c msec s).2 = constrain msec 1 4194 := by
  refine ⟨?_, ?_, ?_, ?_, setTimerInterval_snd m c msec s⟩ <;> intro ch <;>
    rcases c with _ | _ | _ | _ | c <;>
      simp only [stopTimer, initTimer, startTimer, setTimerInterval, cli, sei] <;>
      (try omega) <;> (try split_ifs) <;>
      first
        | omega
        | (rcases ch with _ | _ | _ | _ | ch <;> rfl)

/-- Witness for C9: channel 2 with `SYST_MAX_TIMERS = 2`. -/
theorem C9_out_of_range_no_write_witness :
    (∀ ch, (stopTimer 2 2 true AVRState.init).chRegs ch = AVRState.init.chRegs ch)
    ∧ (∀ ch, (initTimer 2 2 AVRState.init).chRegs ch = AVRState.init.chRegs ch)
    ∧ (∀ ch, (startTimer 2 2 AVRState.init).chRegs ch = AVRState.init.chRegs ch)
    ∧ (∀ ch, ((setTimerInterval 2 2 100 AVRState.init).1).chRegs ch = AVRState.init.chRegs ch)
    ∧ (setTimerInterval 2 2 100 AVRState.init).2 = constrain 100 1 4194 :=
  C9_out_of_range_no_write 2 2 100 true AVRState.init (by decide) (by decide)

/-- C10: `initTimer`, `startTimer`, `setTimerInterval`, and `stopTimer`
with `disableInterrupts = true` all end with an unconditional `sei()`: on
return the global interrupt flag is set, whatever it was on entry (the
state `s` is arbitrary, including `iflag = false`). -/
theorem C10_sei_unconditional (m c msec : ℕ) (s : AVRState) :
    (initTimer m c s).iflag = true
    ∧ (startTimer m c s).iflag = true
    ∧ ((setTimerInterval m c msec s).1).iflag = true
    ∧ (stopTimer m c true s).iflag = true :=
  ⟨rfl, rfl, rfl, rfl⟩

end SysTimer
